import Mathlib

/-!
Shallow embedding of LabStatus.py: a console watcher that dedups filesystem
events, renders normal or distinguished notifications, and maintains two
per-source notify counters.  Pure values stand in for the I/O collaborators:
the current local time string, the login name, the outcome of the file size
query and the directory-existence test are passed as parameters; console
output is collected as a list of printed lines.
-/

/-- ANSI escape sequence produced by colorama's Fore.CYAN. -/
def ForeCYAN : String := "\x1b[36m"

/-- ANSI escape sequence produced by colorama's Fore.MAGENTA. -/
def ForeMAGENTA : String := "\x1b[35m"

/-- ANSI escape sequence produced by colorama's Fore.GREEN. -/
def ForeGREEN : String := "\x1b[32m"

/-- ANSI escape sequence produced by colorama's Fore.RED. -/
def ForeRED : String := "\x1b[31m"

/-- ANSI escape sequence produced by colorama's Style.RESET_ALL. -/
def StyleRESET : String := "\x1b[0m"

/-- ANSI escape sequence produced by colorama's Style.BRIGHT. -/
def StyleBRIGHT : String := "\x1b[1m"

/-- ANSI escape sequence produced by colorama's Style.NORMAL. -/
def StyleNORMAL : String := "\x1b[22m"

/-- Colour-coded label for the Viia7 source (LabStatus.py line 20). -/
def viia7_str : String := ForeCYAN ++ "Viia7" ++ StyleRESET ++ ":  "

/-- Colour-coded label for the Qiaxcel source (LabStatus.py line 21). -/
def qiaxcel_str : String := ForeMAGENTA ++ "Qiaxcel" ++ StyleRESET ++ ":"

/-- Whether the first character list begins with the second. -/
def strStarts : List Char → List Char → Bool
  | _, [] => true
  | [], _ :: _ => false
  | c :: cs, d :: ds => c == d && strStarts cs ds

/-- Whether the needle (second argument) occurs as a contiguous run inside the
haystack (first argument); the empty needle always occurs. -/
def hasSub : List Char → List Char → Bool
  | [], needle => needle.isEmpty
  | c :: hs, needle => strStarts (c :: hs) needle || hasSub hs needle

/-- Python's substring test: needle in hay. -/
def strIn (needle hay : String) : Bool :=
  hasSub hay.toList needle.toList

/-- Python's str.lower; the strings handled by the program are ASCII, where
Char.toLower agrees with Python's per-character lowering. -/
def pyLower (s : String) : String :=
  String.mk (s.toList.map Char.toLower)

/-- Python's str.ljust with the space fill character: pad on the right to the
given width. -/
def ljust (s : String) (width : Nat) : String :=
  s ++ String.mk (List.replicate (width - s.length) ' ')

/-- LabHandler.bright_time (lines 104-107): the formatted local time flanked
by bright ANSI codes.  The formatted time string is a parameter. -/
def bright_time (now : String) : String :=
  StyleBRIGHT ++ now ++ StyleNORMAL

/-- Index of the last occurrence of a character, or -1 when absent, as
Python's str.rfind. -/
def rfindIdx : List Char → Char → Int
  | [], _ => -1
  | d :: ds, c =>
    let r := rfindIdx ds c
    if r ≥ 0 then r + 1 else if d == c then 0 else -1

/-- Root part of Python's os.path.splitext on Windows paths (ntpath): split at
the last dot after the last path separator, unless every character between the
separator and that dot is itself a dot. -/
def splitextRoot (p : String) : String :=
  let cs := p.toList
  let sepIndex := max (rfindIdx cs '\\') (rfindIdx cs '/')
  let dotIndex := rfindIdx cs '.'
  if dotIndex > sepIndex then
    let pre := (cs.drop (sepIndex + 1).toNat).take (dotIndex - sepIndex - 1).toNat
    if pre.any (fun c => c != '.') then String.mk (cs.take dotIndex.toNat) else p
  else p

/-- Python's str.split with a one-character separator: splits on every
occurrence, keeping empty pieces, so the result is always non-empty. -/
def splitOnChar (cs : List Char) (sep : Char) : List (List Char) :=
  match cs with
  | [] => [[]]
  | c :: rest =>
    let r := splitOnChar rest sep
    if c == sep then [] :: r
    else
      match r with
      | [] => [[c]]
      | g :: gs => (c :: g) :: gs

/-- The display file name used by LabHandler (lines 101 and 114): extension
stripped, then the part after the last backslash. -/
def getFileName (p : String) : String :=
  String.mk ((splitOnChar (splitextRoot p).toList '\\').getLastD [])

/-- Shared mutable state of the handler: the recent-events deque and the two
notify counters (lines 17-19).  Counters are modelled as integers because the
decrement in notif is unconditional. -/
structure LabState where
  recent_events : List String
  q_cnt : Int
  v_cnt : Int
  deriving DecidableEq, Repr

/-- Initial state: recent_events = deque('ghi', maxlen=30), both counters 0. -/
def initState : LabState :=
  { recent_events := ["g", "h", "i"], q_cnt := 0, v_cnt := 0 }

/-- Appending to the recent_events deque: the deque was created with
maxlen=30, so an append beyond 30 entries silently evicts the oldest. -/
def dequeAppend (l : List String) (p : String) : List String :=
  let l2 := l ++ [p]
  l2.drop (l2.length - 30)

/-- Result of one call to LabHandler.notif: whether the notification was
distinguished (console flashed), the printed lines, the new deque and the
returned counter value. -/
structure NotifResult where
  distinguished : Bool
  lines : List String
  newEvents : List String
  newCnt : Int
  deriving DecidableEq, Repr

/-- LabHandler.notif (lines 47-63).  login is os.getlogin(), now the formatted
local time; event_type is the watchdog event type string; x_cnt the counter
passed in.  Returns the printed lines, the updated deque and x_cnt - 1. -/
def notif (login now event_type src_path : String) (recent : List String) (x_cnt : Int) :
    NotifResult :=
  let recent2 := dequeAppend recent src_path
  let machine := if event_type == "modified" then viia7_str else qiaxcel_str
  let file0 := getFileName src_path
  let dist := strIn login (pyLower src_path) || decide (x_cnt = 1) || decide (x_cnt > 9)
  let message :=
    if dist then
      ForeGREEN ++ ljust (">>> " ++ machine) 21 ++ " " ++ (ForeGREEN ++ file0 ++ StyleRESET)
        ++ " has finished!"
    else
      ljust (" -  " ++ machine) 21 ++ " " ++ (StyleBRIGHT ++ file0 ++ StyleRESET)
        ++ " has finished."
  let lines :=
    [bright_time now ++ message]
      ++ (if x_cnt = 1 then [ljust "" 19 ++ machine ++ " No longer notifying."] else [])
  { distinguished := dist, lines := lines, newEvents := recent2, newCnt := x_cnt - 1 }

/-- The distinguished test exactly as the spec words it: the login name
appears case-insensitively in the raw event path, or the counter equals 1, or
the counter exceeds 9.  Kept separate from notif for the refinement claim. -/
def spec_distinguished (login path : String) (x_cnt : Int) : Bool :=
  strIn (pyLower login) (pyLower path) || decide (x_cnt = 1) || decide (x_cnt > 9)

/-- LabHandler.notify_setting (lines 65-73): the human-readable status line
for a counter value.  The Python body is an if/elif chain whose branches
return; an uncovered value would fall through to None, hence Option. -/
def notify_setting (machine : String) (x_cnt : Int) : Option String :=
  if 0 < x_cnt ∧ x_cnt < 10 then
    some (ljust "" 19 ++ machine ++ " Notifying in " ++ toString x_cnt ++ " runs time")
  else if x_cnt > 9 then
    some (ljust "" 19 ++ machine ++ " Notifying for all runs")
  else if x_cnt < 1 then
    some (ljust "" 19 ++ machine ++ " Notify OFF")
  else
    none

/-- The q_cnt property getter (lines 75-77). -/
def q_cnt_get (c : Int) : Option String :=
  notify_setting qiaxcel_str c

/-- The v_cnt property getter (lines 87-89). -/
def v_cnt_get (c : Int) : Option String :=
  notify_setting viia7_str c

/-- The q_cnt property setter (lines 79-85): input 0 toggles between off (0)
and the always sentinel 1337; any other input is stored as given. -/
def q_cnt_set (cur x : Int) : Int :=
  if x = 0 then (if cur > 0 then 0 else 1337) else x

/-- The v_cnt property setter (lines 91-96): same toggle rule as q_cnt. -/
def v_cnt_set (cur x : Int) : Int :=
  if x = 0 then (if cur > 0 then 0 else 1337) else x

/-- Outcome of LabHandler.is_large_enough (lines 109-118): whether the file
is treated as large enough, and the lines printed on the way.  st_size models
the os.stat size query: some n on success, none when it raises; e is the text
of the raised exception. -/
structure SizeCheck where
  accepted : Bool
  lines : List String
  deriving DecidableEq, Repr

/-- LabHandler.is_large_enough (lines 109-118): accept iff the size exceeds
1300000 bytes; on a failed size query print a red error line and a warning
notification prefixed with the bright timestamp, and accept anyway. -/
def is_large_enough (now e path : String) (st_size : Option Nat) : SizeCheck :=
  match st_size with
  | some n => { accepted := decide (n > 1300000), lines := [] }
  | none =>
    { accepted := true
      lines := [ForeRED ++ " " ++ e ++ " " ++ StyleRESET,
        bright_time now ++ ljust (" -  " ++ viia7_str) 21 ++ getFileName path
          ++ " wasn't saved properly! You'll need to analyse and save the run again"
          ++ " from the machine."] }

/-- Observable result of handling one event: the new shared state, the lines
printed to the console, and whether the console window was flashed. -/
structure StepResult where
  state : LabState
  output : List String
  flashed : Bool
  deriving DecidableEq, Repr

/-- LabHandler.on_modified (lines 33-39), the Viia7 pipeline: require the
.eds substring in the path and absence from recent_events, then the size
gate, then notif on v_cnt.  The one-second settle sleep has no observable
effect in the model. -/
def on_modified (login now e path : String) (st_size : Option Nat) (s : LabState) :
    StepResult :=
  if strIn ".eds" path = true ∧ path ∉ s.recent_events then
    let chk := is_large_enough now e path st_size
    if chk.accepted then
      let r := notif login now "modified" path s.recent_events s.v_cnt
      { state := { s with recent_events := r.newEvents, v_cnt := r.newCnt },
        output := chk.lines ++ r.lines, flashed := r.distinguished }
    else
      { state := s, output := chk.lines, flashed := false }
  else
    { state := s, output := [], flashed := false }

/-- LabHandler.on_created (lines 41-45), the Qiaxcel pipeline: require the
.xdrx substring in the path and absence from recent_events, then notif on
q_cnt. -/
def on_created (login now path : String) (s : LabState) : StepResult :=
  if strIn ".xdrx" path = true ∧ path ∉ s.recent_events then
    let r := notif login now "created" path s.recent_events s.q_cnt
    { state := { s with recent_events := r.newEvents, q_cnt := r.newCnt },
      output := r.lines, flashed := r.distinguished }
  else
    { state := s, output := [], flashed := false }

/-- The digit scan of get_input (lines 135-140): the first digit character in
the line, as an integer, or 0 when the line holds no digit. -/
def firstDigitCount (inp : String) : Int :=
  match inp.toList.find? (fun c => c.isDigit) with
  | some c => Int.ofNat (c.toNat - '0'.toNat)
  | none => 0

/-- First paragraph printed for the help command (lines 129-131). -/
def helpText1 : String :=
  "Monitors Qiaxcel and Viia7 for file events and prints a notification.\n"
    ++ "Files with your username in the path will generate a distinguished notification.\n"
    ++ "Commands may be given to notify you on other events, e.g. All runs or in n run's time.\n"

/-- Second paragraph printed for the help command (lines 132-134). -/
def helpText2 : String :=
  "Commands - q (Qiaxcel), v (Viia7) and a single digit or some combination.\n"
    ++ "Any digit after the first is ignored. e.g: q, q5, v4, qv3. q54 == q5.\n"
    ++ "No number will toggle notifications on all events, a number will notify after n events.\n"

/-- One iteration of the get_input loop (lines 126-148) on one input line:
print help when asked, find the first digit (0 when none), and for each of the
letters q and v present in the lowercased line, run the corresponding counter
setter and print the resulting status line. -/
def process_line (inp : String) (s : LabState) : LabState × List String :=
  let helpOut := if inp == "help" then [helpText1, helpText2] else []
  let count := firstDigitCount inp
  let qr :=
    if strIn "q" (pyLower inp) = true then
      let c := q_cnt_set s.q_cnt count
      (c, [(q_cnt_get c).getD "None"])
    else (s.q_cnt, [])
  let vr :=
    if strIn "v" (pyLower inp) = true then
      let c := v_cnt_set s.v_cnt count
      (c, [(v_cnt_get c).getD "None"])
    else (s.v_cnt, [])
  ({ s with q_cnt := qr.1, v_cnt := vr.1 }, helpOut ++ qr.2 ++ vr.2)

/-- build_path (lines 179-180): the month-named experiments directory. -/
def build_path (month year : String) : String :=
  "\\\\File01-s0\\Team121\\Genotyping\\qPCR " ++ year ++ "\\Experiments\\"
    ++ month ++ " " ++ year

/-- Outcome of viia7_path: an existing directory was found, a directory was
created (os.makedirs) and returned, or the function printed its failure
message and raised FileNotFoundError. -/
inductive PathOutcome where
  | found : String → PathOutcome
  | created : String → PathOutcome
  | failed : PathOutcome
  deriving DecidableEq, Repr

/-- viia7_path (lines 153-176).  isdir models os.path.isdir; month and
month_full are the abbreviated and full names of the requested month (the
previous month when last is true, today's month otherwise) and year its year,
as produced by strftime.  Tries the abbreviated name, the full name, then
Sept for September only; then creates the abbreviated path unless last. -/
def viia7_path (isdir : String → Bool) (month month_full year : String) (last : Bool) :
    PathOutcome :=
  let makedirs := !last
  let path := build_path month year
  if isdir path then .found path
  else if isdir (build_path month_full year) then .found (build_path month_full year)
  else if month == "Sep" && isdir (build_path "Sept" year) then .found (build_path "Sept" year)
  else if makedirs then .created path
  else .failed

/-- Folds notif over a list of event paths of one source, threading the deque
and the counter; returns the distinguished flag of each render and the final
counter. -/
def notifSeq (login now event_type : String) (paths : List String) (recent : List String)
    (x_cnt : Int) : List Bool × Int :=
  match paths with
  | [] => ([], x_cnt)
  | p :: ps =>
    let r := notif login now event_type p recent x_cnt
    let rest := notifSeq login now event_type ps r.newEvents r.newCnt
    (r.distinguished :: rest.1, rest.2)

/-- Concrete list of 30 follow-up paths for the C6 witness. -/
def ledgerWitnessPaths : List String :=
  ["p02", "p03", "p04", "p05", "p06", "p07", "p08", "p09", "p10", "p11",
   "p12", "p13", "p14", "p15", "p16", "p17", "p18", "p19", "p20", "p21",
   "p22", "p23", "p24", "p25", "p26", "p27", "p28", "p29", "p30", "p31"]

example : strIn "" "abc" = true := by decide
example : strIn "b.c" "ab.cd" = true := by decide
example : strIn "bd" "ab.cd" = false := by decide
example : pyLower "AbC" = "abc" := by decide
example : getFileName "\\\\srv\\dir\\run7.eds" = "run7" := by decide
example : getFileName "C:\\a\\.bashrc" = ".bashrc" := by decide
example : splitextRoot "a.b.c" = "a.b" := by decide
example : (notif "u" "t" "modified" "x.eds" [] 0).newCnt = -1 := by decide
example : (notif "u" "t" "modified" "u.eds" [] 0).distinguished = true := by decide
example : (notif "u" "t" "modified" "x.eds" [] 1).distinguished = true := by decide
example : (notif "u" "t" "modified" "x.eds" [] 1337).distinguished = true := by decide
example : (notif "u" "t" "modified" "x.eds" [] 2).distinguished = false := by decide
example : firstDigitCount "qv3" = 3 := by decide
example : firstDigitCount "q54" = 5 := by decide
example : firstDigitCount "q" = 0 := by decide
example : (process_line "qv3" initState).1.q_cnt = 3 := by decide
example : (process_line "qv3" initState).1.v_cnt = 3 := by decide
example : (process_line "q" initState).1.q_cnt = 1337 := by decide
example : (process_line "q" (process_line "q" initState).1).1.q_cnt = 0 := by decide
example : strIn "Notifying in 3 runs time" ((q_cnt_get 3).getD "None") = true := by decide
example : (is_large_enough "t" "err" "a\\b.eds" (some 1300000)).accepted = false := by decide
example : (is_large_enough "t" "err" "a\\b.eds" (some 1300001)).accepted = true := by decide
example : (is_large_enough "t" "err" "a\\b.eds" none).accepted = true := by decide
example : viia7_path (fun _ => false) "Jan" "January" "2026" true = .failed := by decide
example :
    viia7_path (fun _ => false) "Jan" "January" "2026" false
      = .created (build_path "Jan" "2026") := by decide
example :
    viia7_path (fun p => p == build_path "Sept" "2026") "Sep" "September" "2026" true
      = .found (build_path "Sept" "2026") := by decide
example :
    viia7_path (fun p => p == build_path "Sept" "2026") "Oct" "October" "2026" true
      = .failed := by decide
example :
    on_modified "u" "t" "err" "a\\b.eds" (some 1300000) initState
      = { state := initState, output := [], flashed := false } := by decide
example :
    notifSeq "u" "t" "modified" ["a.eds", "b.eds"] [] ((2 : Nat) : Int)
      = ([false, true], 0) := by decide

/-- Helper: folding notif over login-free paths from a counter equal to the
number of paths (between 1 and 9) renders the first renders normal, the last
one distinguished, and ends with the counter at 0. -/
theorem notifSeq_countdown :
    ∀ (paths : List String) (login now et : String) (recent : List String) (c : Int),
      0 < c → c ≤ 9 → (paths.length : Int) = c →
      (∀ p ∈ paths, strIn login (pyLower p) = false) →
      notifSeq login now et paths recent c
        = (List.replicate (paths.length - 1) false ++ [true], 0) := by
  intro paths
  induction paths with
  | nil =>
    intro login now et recent c hc _ hlen _
    simp at hlen
    omega
  | cons p ps ih =>
    intro login now et recent c hc hc9 hlen hno
    have hp : strIn login (pyLower p) = false := hno p (by simp)
    have hps : ∀ q ∈ ps, strIn login (pyLower q) = false := fun q hq => hno q (by simp [hq])
    have hlen2 : c = (ps.length : Int) + 1 := by
      simp at hlen
      omega
    by_cases hnil : ps = []
    · subst hnil
      have hc1 : c = 1 := by simp at hlen2; omega
      subst hc1
      simp [notifSeq, notif, hp]
    · have hlp : 1 ≤ ps.length := by
        cases ps with
        | nil => exact absurd rfl hnil
        | cons a b => simp
      have h1 : decide (c = 1) = false := decide_eq_false (by omega)
      have h9 : decide (c > 9) = false := decide_eq_false (by omega)
      have hrec := ih login now et (dequeAppend recent p) (c - 1)
        (by omega) (by omega) (by omega) hps
      simp only [notifSeq, notif, hp, h1, h9, Bool.false_or, Bool.or_false]
      rw [hrec]
      obtain ⟨k, hk⟩ : ∃ k, ps.length = k + 1 := ⟨ps.length - 1, by omega⟩
      simp [hk, List.replicate_succ]

/-- C1: for a counter value n with 1 < n and n <= 9, rendering n consecutive
eligible candidates whose paths avoid the login name drives the counter to
exactly 0, the first n-1 renders being normal and the n-th distinguished. -/
theorem countdown_drives_to_zero (login now et : String) (paths recent : List String)
    (n : Nat) (h1 : 1 < n) (h2 : n ≤ 9) (hlen : paths.length = n)
    (hno : ∀ p ∈ paths, strIn login (pyLower p) = false) :
    notifSeq login now et paths recent ((n : Nat) : Int)
      = (List.replicate (n - 1) false ++ [true], 0) := by
  have h := notifSeq_countdown paths login now et recent ((n : Nat) : Int)
    (by exact_mod_cast Nat.lt_of_lt_of_le Nat.zero_lt_one (Nat.le_of_lt h1))
    (by exact_mod_cast h2) (by exact_mod_cast hlen) hno
  rw [h, hlen]

/-- Witness for C1 at n = 2 with two concrete candidate paths. -/
theorem countdown_drives_to_zero_witness :
    (1 < 2 ∧ 2 ≤ 9 ∧ (["a.eds", "b.eds"] : List String).length = 2) ∧
    notifSeq "user" "t" "modified" ["a.eds", "b.eds"] [] ((2 : Nat) : Int)
      = ([false, true], 0) :=
  ⟨by decide,
    countdown_drives_to_zero "user" "t" "modified" ["a.eds", "b.eds"] [] 2
      (by decide) (by decide) (by decide) (by decide)⟩

/-- C3: input 0 toggles each counter between off and the 1337 always
sentinel (twice from 0 gives 1337 then 0); a digit 1..9 is stored exactly. -/
theorem counter_toggle_rule :
    (q_cnt_set 0 0 = 1337 ∧ q_cnt_set 0 0 > 9 ∧ q_cnt_set (q_cnt_set 0 0) 0 = 0) ∧
    (v_cnt_set 0 0 = 1337 ∧ v_cnt_set 0 0 > 9 ∧ v_cnt_set (v_cnt_set 0 0) 0 = 0) ∧
    (∀ c : Int, c > 0 → q_cnt_set c 0 = 0 ∧ v_cnt_set c 0 = 0) ∧
    (∀ c : Int, c ≤ 0 → q_cnt_set c 0 = 1337 ∧ v_cnt_set c 0 = 1337 ∧ (1337 : Int) > 9) ∧
    (∀ c n : Int, 1 ≤ n → n ≤ 9 → q_cnt_set c n = n ∧ v_cnt_set c n = n) := by
  refine ⟨⟨by decide, by decide, by decide⟩, ⟨by decide, by decide, by decide⟩, ?_, ?_, ?_⟩
  · intro c hc
    constructor <;> simp [q_cnt_set, v_cnt_set, hc]
  · intro c hc
    have h : ¬(c > 0) := by omega
    refine ⟨?_, ?_, by decide⟩ <;> simp [q_cnt_set, v_cnt_set, h]
  · intro c n h1 h9
    have h : ¬(n = 0) := by omega
    constructor <;> simp [q_cnt_set, v_cnt_set, h]

/-- Witness for C3 at concrete counter values. -/
theorem counter_toggle_rule_witness :
    q_cnt_set 5 0 = 0 ∧ v_cnt_set (-2) 0 = 1337 ∧ q_cnt_set 7 3 = 3 ∧ v_cnt_set 7 3 = 3 := by
  have h := counter_toggle_rule
  exact ⟨(h.2.2.1 5 (by decide)).1, (h.2.2.2.1 (-2) (by decide)).2.1,
    (h.2.2.2.2 7 3 (by decide) (by decide)).1, (h.2.2.2.2 7 3 (by decide) (by decide)).2⟩

/-- C4 counterexample: a login-matching render with the counter already at 0
is distinguished, yet the returned counter is -1: the decrement is
unconditional and the counter does drop below 0. -/
theorem login_render_goes_negative :
    (notif "u" "t" "modified" "u.eds" [] 0).distinguished = true ∧
    (notif "u" "t" "modified" "u.eds" [] 0).newCnt = -1 := by decide

/-- C4 (amended): a render of a path whose lowercased text contains the login
name is distinguished whatever the counter value (0 and negative included),
and the render always returns the counter decremented by one, so a counter at
0 drifts to -1. -/
theorem login_render_always_distinguished (login now et path : String)
    (recent : List String) (c : Int) (h : strIn login (pyLower path) = true) :
    (notif login now et path recent c).distinguished = true ∧
    (notif login now et path recent c).newCnt = c - 1 := by
  constructor <;> simp [notif, h]

/-- Witness for the amended C4 at a negative counter. -/
theorem login_render_always_distinguished_witness :
    strIn "u" (pyLower "u.eds") = true ∧
    (notif "u" "t" "modified" "u.eds" ["x"] (-5)).distinguished = true ∧
    (notif "u" "t" "modified" "u.eds" ["x"] (-5)).newCnt = -6 := by
  have h := login_render_always_distinguished "u" "t" "modified" "u.eds" ["x"] (-5) (by decide)
  refine ⟨by decide, h.1, ?_⟩
  rw [h.2]
  decide

/-- C5: an event whose path is already in recent_events is fully suppressed
on both pipelines: no output, no flash, and the state (ledger and both
counters) is unchanged. -/
theorem duplicate_event_suppressed (login now e : String) (st : Option Nat)
    (path : String) (s : LabState) (h : path ∈ s.recent_events) :
    on_modified login now e path st s = { state := s, output := [], flashed := false } ∧
    on_created login now path s = { state := s, output := [], flashed := false } := by
  constructor
  · simp [on_modified, h]
  · simp [on_created, h]

/-- Witness for C5 on a concrete duplicated path. -/
theorem duplicate_event_suppressed_witness :
    "a.eds" ∈ (LabState.mk ["a.eds", "b.xdrx"] 4 7).recent_events ∧
    on_modified "u" "t" "err" "a.eds" (some 2000000) (LabState.mk ["a.eds", "b.xdrx"] 4 7)
      = { state := LabState.mk ["a.eds", "b.xdrx"] 4 7, output := [], flashed := false } ∧
    on_created "u" "t" "a.eds" (LabState.mk ["a.eds", "b.xdrx"] 4 7)
      = { state := LabState.mk ["a.eds", "b.xdrx"] 4 7, output := [], flashed := false } := by
  have h := duplicate_event_suppressed "u" "t" "err" (some 2000000) "a.eds"
    (LabState.mk ["a.eds", "b.xdrx"] 4 7) (by decide)
  exact ⟨by decide, h.1, h.2⟩

/-- C2 counterexample: with login name "A", raw event path "A" and counter 0,
the spec's case-insensitive rule says distinguished, but the render is
normal: the code lowercases only the path, not the login name. -/
theorem distinguished_case_counterexample :
    spec_distinguished "A" "A" 0 = true ∧
    (notif "A" "t" "modified" "A" [] 0).distinguished = false := by decide

/-- C2 (amended): a render is distinguished iff the login name, matched
verbatim as returned by the system, occurs in the lowercased event path, or
the counter equals exactly 1, or the counter exceeds 9; whenever the login
name is all lowercase this agrees with the spec's case-insensitive rule, so
the match is then insensitive to the letter case used in the event path. -/
theorem distinguished_characterization (login now et path : String)
    (recent : List String) (c : Int) :
    ((notif login now et path recent c).distinguished
      = (strIn login (pyLower path) || decide (c = 1) || decide (c > 9))) ∧
    (pyLower login = login →
      (notif login now et path recent c).distinguished = spec_distinguished login path c) := by
  refine ⟨rfl, ?_⟩
  intro h
  simp only [notif, spec_distinguished, h]

/-- Witness for the amended C2 with an all-lowercase login name. -/
theorem distinguished_characterization_witness :
    pyLower "u" = "u" ∧
    ((notif "u" "t" "modified" "U.eds" [] 0).distinguished
      = (strIn "u" (pyLower "U.eds") || decide ((0 : Int) = 1) || decide ((0 : Int) > 9))) ∧
    (notif "u" "t" "modified" "U.eds" [] 0).distinguished
      = spec_distinguished "u" "U.eds" 0 := by
  have h := distinguished_characterization "u" "t" "modified" "U.eds" [] 0
  exact ⟨by decide, h.1, h.2 (by decide)⟩

/-- Helper: folding the deque append from any start of length at most 30
keeps exactly the last 30 entries of the concatenation. -/
theorem foldl_dequeAppend :
    ∀ (ps l : List String), l.length ≤ 30 →
      List.foldl dequeAppend l ps = (l ++ ps).drop ((l ++ ps).length - 30) := by
  intro ps
  induction ps with
  | nil =>
    intro l hl
    simp [Nat.sub_eq_zero_of_le hl]
  | cons p ps ih =>
    intro l hl
    have hlen2 : (dequeAppend l p).length ≤ 30 := by
      simp [dequeAppend]
      omega
    rw [List.foldl_cons, ih _ hlen2]
    simp only [dequeAppend]
    rw [← List.drop_append_of_le_length (by simp; omega)]
    rw [List.drop_drop]
    congr 1
    · simp [List.length_drop]
      omega
    · simp

/-- C6: recording 31 distinct paths always leaves exactly the last 30 in the
deque: the first recorded path is evicted and no longer seen, the 2nd through
31st are all still seen.  The start ledger is any reachable one (length at
most 30). -/
theorem ledger_evicts_oldest (l : List String) (p : String) (rest : List String)
    (hl : l.length ≤ 30) (hlen : rest.length = 30) (hp : p ∉ rest) :
    List.foldl dequeAppend l (p :: rest) = rest ∧
    p ∉ List.foldl dequeAppend l (p :: rest) ∧
    ∀ x ∈ rest, x ∈ List.foldl dequeAppend l (p :: rest) := by
  have h := foldl_dequeAppend (p :: rest) l hl
  have hidx : (l ++ p :: rest).length - 30 = l.length + 1 := by
    simp [hlen]
  have hdrop : (l ++ p :: rest).drop ((l ++ p :: rest).length - 30) = rest := by
    rw [hidx, show l.length + 1 = l.length + 1 from rfl,
      show l ++ p :: rest = l ++ [p] ++ rest by simp,
      show l.length + 1 = (l ++ [p]).length + 0 by simp,
      List.drop_append 0]
    simp
  rw [h, hdrop]
  exact ⟨rfl, hp, fun x hx => hx⟩

/-- Witness for C6: from the initial three-entry deque, 31 distinct inserts
leave exactly the last 30. -/
theorem ledger_evicts_oldest_witness :
    ((["g", "h", "i"] : List String).length ≤ 30 ∧ ledgerWitnessPaths.length = 30 ∧
      "p01" ∉ ledgerWitnessPaths) ∧
    List.foldl dequeAppend ["g", "h", "i"] ("p01" :: ledgerWitnessPaths)
      = ledgerWitnessPaths := by
  have h := ledger_evicts_oldest ["g", "h", "i"] "p01" ledgerWitnessPaths
    (by decide) (by decide) (by decide)
  exact ⟨⟨by decide, by decide, by decide⟩, h.1⟩

/-- Helper: find? hits the first digit and ignores everything after it. -/
theorem find?_first_digit (pre : List Char) (d : Char) (post : List Char)
    (h : ∀ c ∈ pre, c.isDigit = false) (hd : d.isDigit = true) :
    (pre ++ d :: post).find? (fun c => c.isDigit) = some d := by
  induction pre with
  | nil => simp [List.find?, hd]
  | cons c cs ih =>
    have hc : c.isDigit = false := h c (by simp)
    simp only [List.cons_append, List.find?, hc]
    exact ih (fun x hx => h x (by simp [hx]))

/-- C7: the line qv3 does not toggle: it sets both counters to exactly 3 and
both printed status lines read Notifying in 3 runs time; only the first digit
of a line is used, digits after it being ignored; and a line with a
recognized letter but no digit at all runs the setter with the toggle input
0. -/
theorem command_line_digit_rule :
    (∀ s : LabState,
      (process_line "qv3" s).1.q_cnt = 3 ∧
      (process_line "qv3" s).1.v_cnt = 3 ∧
      (process_line "qv3" s).2 = [(q_cnt_get 3).getD "None", (v_cnt_get 3).getD "None"] ∧
      strIn "Notifying in 3 runs time" ((q_cnt_get 3).getD "None") = true ∧
      strIn "Notifying in 3 runs time" ((v_cnt_get 3).getD "None") = true) ∧
    (∀ (pre : List Char) (d : Char) (post : List Char),
      (∀ c ∈ pre, c.isDigit = false) → d.isDigit = true →
      firstDigitCount (String.mk (pre ++ d :: post)) = Int.ofNat (d.toNat - '0'.toNat) ∧
      firstDigitCount (String.mk (pre ++ d :: post))
        = firstDigitCount (String.mk (pre ++ [d]))) ∧
    (∀ (inp : String) (s : LabState), (∀ c ∈ inp.toList, c.isDigit = false) →
      (strIn "q" (pyLower inp) = true →
        (process_line inp s).1.q_cnt = q_cnt_set s.q_cnt 0) ∧
      (strIn "v" (pyLower inp) = true →
        (process_line inp s).1.v_cnt = v_cnt_set s.v_cnt 0)) := by
  refine ⟨fun s => ⟨rfl, rfl, rfl, by decide, by decide⟩, ?_, ?_⟩
  · intro pre d post h hd
    have h1 : firstDigitCount (String.mk (pre ++ d :: post))
        = Int.ofNat (d.toNat - '0'.toNat) := by
      simp only [firstDigitCount, String.toList]
      rw [find?_first_digit pre d post h hd]
    have h2 : firstDigitCount (String.mk (pre ++ [d]))
        = Int.ofNat (d.toNat - '0'.toNat) := by
      simp only [firstDigitCount, String.toList]
      rw [find?_first_digit pre d [] h hd]
    exact ⟨h1, h1.trans h2.symm⟩
  · intro inp s h
    have hcount : firstDigitCount inp = 0 := by
      simp only [firstDigitCount]
      rw [List.find?_eq_none.mpr (fun x hx => by simp [h x hx])]
    constructor
    · intro hq
      simp [process_line, hq, hcount]
    · intro hv
      simp [process_line, hv, hcount]

/-- Witness for C7 on the initial state, the line q54 and the line q. -/
theorem command_line_digit_rule_witness :
    ((process_line "qv3" initState).1.q_cnt = 3 ∧
      (process_line "qv3" initState).1.v_cnt = 3) ∧
    firstDigitCount (String.mk (['q'] ++ '5' :: ['4']))
      = firstDigitCount (String.mk (['q'] ++ ['5'])) ∧
    (process_line "q" initState).1.q_cnt = q_cnt_set initState.q_cnt 0 := by
  have h1 := command_line_digit_rule.1 initState
  have h2 := command_line_digit_rule.2.1 ['q'] '5' ['4'] (by decide) (by decide)
  have h3 := command_line_digit_rule.2.2 "q" initState (by decide)
  exact ⟨⟨h1.1, h1.2.1⟩, h2.2, h3.1 (by decide)⟩

/-- C8: when the size query on a source-A candidate raises, the classifier
accepts the file anyway, printing a red error line and a warning notification
prefixed with the bright timestamp, and the event proceeds to notification:
the path is recorded and the Viia7 counter decremented. -/
theorem size_check_failure_accepts (login now e path : String) (s : LabState)
    (hext : strIn ".eds" path = true) (hnew : path ∉ s.recent_events) :
    (is_large_enough now e path none).accepted = true ∧
    (is_large_enough now e path none).lines =
      [ForeRED ++ " " ++ e ++ " " ++ StyleRESET,
        bright_time now ++ ljust (" -  " ++ viia7_str) 21 ++ getFileName path
          ++ " wasn't saved properly! You'll need to analyse and save the run again"
          ++ " from the machine."] ∧
    (on_modified login now e path none s).output
      = (is_large_enough now e path none).lines
        ++ (notif login now "modified" path s.recent_events s.v_cnt).lines ∧
    (on_modified login now e path none s).state.recent_events
      = dequeAppend s.recent_events path ∧
    (on_modified login now e path none s).state.v_cnt = s.v_cnt - 1 := by
  refine ⟨rfl, rfl, ?_, ?_, ?_⟩ <;> simp [on_modified, hext, hnew, is_large_enough, notif]

/-- Witness for C8 on a concrete vanished file. -/
theorem size_check_failure_accepts_witness :
    (strIn ".eds" "run.eds" = true ∧ "run.eds" ∉ (LabState.mk ["x"] 2 5).recent_events) ∧
    (is_large_enough "t" "oserr" "run.eds" none).accepted = true ∧
    (on_modified "u" "t" "oserr" "run.eds" none (LabState.mk ["x"] 2 5)).output
      = (is_large_enough "t" "oserr" "run.eds" none).lines
        ++ (notif "u" "t" "modified" "run.eds" ["x"] 5).lines ∧
    (on_modified "u" "t" "oserr" "run.eds" none (LabState.mk ["x"] 2 5)).state.v_cnt
      = 5 - 1 := by
  have h := size_check_failure_accepts "u" "t" "oserr" "run.eds" (LabState.mk ["x"] 2 5)
    (by decide) (by decide)
  exact ⟨⟨by decide, by decide⟩, h.1, h.2.2.1, h.2.2.2.2⟩

/-- C9: viia7_path tries the abbreviated month directory, then the full name,
then Sept but only when the month is September; when none exist the previous
month request never creates anything and fails (prints and raises), while the
current month request creates the abbreviated-name directory. -/
theorem viia7_path_resolution (isdir : String → Bool) (month month_full year : String) :
    (∀ last, isdir (build_path month year) = true →
      viia7_path isdir month month_full year last = .found (build_path month year)) ∧
    (∀ last, isdir (build_path month year) = false →
      isdir (build_path month_full year) = true →
      viia7_path isdir month month_full year last = .found (build_path month_full year)) ∧
    (∀ last, isdir (build_path month year) = false →
      isdir (build_path month_full year) = false → month = "Sep" →
      isdir (build_path "Sept" year) = true →
      viia7_path isdir month month_full year last = .found (build_path "Sept" year)) ∧
    (isdir (build_path month year) = false →
      isdir (build_path month_full year) = false →
      (month = "Sep" → isdir (build_path "Sept" year) = false) →
      viia7_path isdir month month_full year true = .failed ∧
      viia7_path isdir month month_full year false = .created (build_path month year)) ∧
    (∀ p, viia7_path isdir month month_full year true ≠ .created p) := by
  refine ⟨?_, ?_, ?_, ?_, ?_⟩
  · intro last h1
    simp [viia7_path, h1]
  · intro last h1 h2
    simp [viia7_path, h1, h2]
  · intro last h1 h2 hm h3
    subst hm
    simp [viia7_path, h1, h2, h3]
  · intro h1 h2 hsep
    have hb : (month == "Sep" && isdir (build_path "Sept" year)) = false := by
      by_cases hm : month = "Sep"
      · simp [hm, hsep hm]
      · simp [beq_iff_eq, hm]
    constructor <;> simp [viia7_path, h1, h2, hb]
  · intro p
    simp only [viia7_path, Bool.not_true]
    split
    · simp
    · split
      · simp
      · split
        · simp
        · simp

/-- Witness for C9: with no directory present, the previous-month request
fails and the current-month request creates the abbreviated path. -/
theorem viia7_path_resolution_witness :
    viia7_path (fun _ => false) "Jan" "January" "2026" true = .failed ∧
    viia7_path (fun _ => false) "Jan" "January" "2026" false
      = .created (build_path "Jan" "2026") := by
  have h := (viia7_path_resolution (fun _ => false) "Jan" "January" "2026").2.2.2.1
    rfl rfl (fun _ => rfl)
  exact ⟨h.1, h.2⟩

/-- C10: a source-A event that passes the extension and recency checks but
whose size is at most the 1300000-byte threshold produces no output, no
flash, and leaves the ledger and both counters untouched; the same event
with a size above the threshold is then still notified. -/
theorem small_file_no_effect (login now e path : String) (s : LabState) (sz : Nat)
    (hext : strIn ".eds" path = true) (hnew : path ∉ s.recent_events)
    (hsz : sz ≤ 1300000) :
    on_modified login now e path (some sz) s
      = { state := s, output := [], flashed := false } ∧
    ∀ sz2 : Nat, sz2 > 1300000 →
      (on_modified login now e path (some sz2) s).output
        = (notif login now "modified" path s.recent_events s.v_cnt).lines ∧
      (on_modified login now e path (some sz2) s).output ≠ [] := by
  constructor
  · have hacc : (is_large_enough now e path (some sz)).accepted = false := by
      simp [is_large_enough]
      omega
    have hlines : (is_large_enough now e path (some sz)).lines = [] := rfl
    simp [on_modified, hext, hnew, hacc, hlines]
  · intro sz2 h2
    have hacc : (is_large_enough now e path (some sz2)).accepted = true := by
      simp [is_large_enough]
      omega
    have hlines : (is_large_enough now e path (some sz2)).lines = [] := rfl
    constructor
    · simp [on_modified, hext, hnew, hacc, hlines]
    · simp [on_modified, hext, hnew, hacc, hlines, notif]

/-- Witness for C10 at the exact threshold size and one byte above it. -/
theorem small_file_no_effect_witness :
    (strIn ".eds" "run.eds" = true ∧ "run.eds" ∉ (LabState.mk ["x"] 2 5).recent_events ∧
      1300000 ≤ 1300000) ∧
    on_modified "u" "t" "oserr" "run.eds" (some 1300000) (LabState.mk ["x"] 2 5)
      = { state := LabState.mk ["x"] 2 5, output := [], flashed := false } ∧
    (on_modified "u" "t" "oserr" "run.eds" (some 1300001) (LabState.mk ["x"] 2 5)).output
      ≠ [] := by
  have h := small_file_no_effect "u" "t" "oserr" "run.eds" (LabState.mk ["x"] 2 5) 1300000
    (by decide) (by decide) (by decide)
  exact ⟨⟨by decide, by decide, by decide⟩, h.1, (h.2 1300001 (by decide)).2⟩
